import Mathlib

/-!
Shallow embedding of `runfx` (package `runfx`, file `src/runfx.go`).

The package drives a managed fx application through the phases
SetDefaults → Validate → Build (`fx.New`) → Start → Wait → Stop and maps
the result into a single outcome: `Run` returns a Go `error` (nil on
success), and `RunAndExit` converts that error into a process exit
status via `errors.As`-matching on `ExitError`.

The embedding models each hook of the application as an oracle field of
`AppSpec` describing what the hook would return; `Run` is translated
statement by statement from the Go source and additionally records the
trace of observable events (hook invocations and the acquisition /
release of the two `context.WithTimeout` cancel functions, with Go
`defer` semantics: deferred releases run, last-in first-out, when `Run`
returns).
-/

/-- An OS signal identifier (`os.Signal` is an interface in Go; values are
opaque here, `Option` models nil-ability of the field). -/
abbrev OSSignal := String

/-- `fx.ShutdownSignal`: what `<-fxApp.Wait()` yields — an exit code and an
optional OS signal. -/
structure ShutdownSignal where
  ExitCode : Int
  Signal : Option OSSignal
deriving DecidableEq, Repr

/-- `ExitError` from `src/runfx.go`: "indicates the application exited with a
non-zero exit code". -/
structure ExitError where
  ExitCode : Int
  Signal : Option OSSignal
deriving DecidableEq, Repr

/-- A Go `error` value as produced in this package: either an `ExitError`
value, an opaque base error (e.g. one returned by an application hook), or a
`fmt.Errorf("tag: %w", cause)` wrapper. -/
inductive GoError where
  | exit (e : ExitError)
  | base (msg : String)
  | wrap (tag : String) (cause : GoError)
deriving DecidableEq, Repr

/-- `err.Error()`: the message of a Go error in this package.
`fmt.Errorf("tag: %w", cause)` renders as `tag ++ ": " ++ cause.Error()`;
`ExitError.Error` renders its code and signal. -/
def GoError.message : GoError → String
  | .exit e =>
      "exit: code=" ++ toString e.ExitCode ++ " signal="
        ++ (match e.Signal with | some s => s | none => "<nil>")
  | .base msg => msg
  | .wrap tag cause => tag ++ ": " ++ cause.message

/-- `errors.As(err, &exitErr)` with `exitErr ExitError`: walks the `%w`
unwrap chain and yields the first `ExitError` value found, if any. -/
def asExitError : GoError → Option ExitError
  | .exit e => some e
  | .base _ => none
  | .wrap _ cause => asExitError cause

/-- Oracle description of one application handed to `Run`: whether it
implements the optional `SetDefaulter` / `Validator` interfaces, and what
each hook would return (`none` = nil error = success).  `waitSignal` is the
`fx.ShutdownSignal` that `<-fxApp.Wait()` would deliver. -/
structure AppSpec where
  hasSetDefaults : Bool
  setDefaultsResult : Option GoError
  hasValidate : Bool
  validateResult : Option GoError
  buildResult : Option GoError
  startResult : Option GoError
  waitSignal : ShutdownSignal
  stopResult : Option GoError
deriving DecidableEq, Repr

/-- Observable events of one `Run` invocation: the hook invocations, plus
acquisition and (deferred) release of the start- and stop-bounded
sub-contexts' cancel functions. -/
inductive Event where
  | setDefaults
  | validate
  | build
  | startCancelAcquire
  | start
  | startCancelRelease
  | wait
  | stopCancelAcquire
  | stop
  | stopCancelRelease
deriving DecidableEq, Repr

/-- `Run(ctx, fxOpts)` from `src/runfx.go`, translated statement by
statement.  Returns the trace of events together with the returned Go
error (`none` = nil).  Go `defer` semantics: `startCancel` is deferred
right after the start context is acquired and `stopCancel` right after the
stop context is acquired, and pending defers run last-in first-out when
`Run` returns — so the release events appear at the end of each path's
trace, not when the corresponding phase completes. -/
def Run (app : AppSpec) : List Event × Option GoError :=
  let t1 := if app.hasSetDefaults then [Event.setDefaults] else []
  match (if app.hasSetDefaults then app.setDefaultsResult else none) with
  | some err => (t1, some (GoError.wrap "set defaults" err))
  | none =>
    let t2 := t1 ++ (if app.hasValidate then [Event.validate] else [])
    match (if app.hasValidate then app.validateResult else none) with
    | some err => (t2, some (GoError.wrap "validate" err))
    | none =>
      let t3 := t2 ++ [Event.build]
      match app.buildResult with
      | some err => (t3, some (GoError.wrap "fx.New" err))
      | none =>
        let t4 := t3 ++ [Event.startCancelAcquire, Event.start]
        match app.startResult with
        | some err =>
            (t4 ++ [Event.startCancelRelease], some (GoError.wrap "fx.Start" err))
        | none =>
          let t5 := t4 ++ [Event.wait, Event.stopCancelAcquire, Event.stop]
          match app.stopResult with
          | some err =>
              (t5 ++ [Event.stopCancelRelease, Event.startCancelRelease],
               some (GoError.wrap "fx.Stop" err))
          | none =>
            let t6 := t5 ++ [Event.stopCancelRelease, Event.startCancelRelease]
            if app.waitSignal.ExitCode ≠ 0 then
              (t6, some (GoError.exit ⟨app.waitSignal.ExitCode, app.waitSignal.Signal⟩))
            else
              (t6, none)

/-- `RunAndExit(ctx, fxOpts)` from `src/runfx.go`: calls `Run`; on a non-nil
error, if `errors.As` finds an `ExitError` in the chain it calls
`os.Exit(exitErr.ExitCode)`, otherwise `log.Fatal(err)` (which exits with
status 1); on a nil error it calls `os.Exit(0)`.  The value returned here
is the process exit status passed to `os.Exit`. -/
def RunAndExit (app : AppSpec) : Int :=
  match (Run app).2 with
  | some err =>
    match asExitError err with
    | some exitErr => exitErr.ExitCode
    | none => 1
  | none => 0

/-- The events contributed by the two optional phases: `SetDefaults` when the
application implements `SetDefaulter`, then `Validate` when it implements
`Validator`. -/
def optEvents (app : AppSpec) : List Event :=
  (if app.hasSetDefaults then [Event.setDefaults] else []) ++
    (if app.hasValidate then [Event.validate] else [])

theorem run_setDefaults_fail (app : AppSpec) (e : GoError)
    (h1 : app.hasSetDefaults = true) (h2 : app.setDefaultsResult = some e) :
    Run app = ([Event.setDefaults], some (GoError.wrap "set defaults" e)) := by
  simp [Run, h1, h2]

theorem run_validate_fail (app : AppSpec) (e : GoError)
    (hd : app.hasSetDefaults = true → app.setDefaultsResult = none)
    (h1 : app.hasValidate = true) (h2 : app.validateResult = some e) :
    Run app =
      ((if app.hasSetDefaults then [Event.setDefaults] else []) ++ [Event.validate],
       some (GoError.wrap "validate" e)) := by
  by_cases hsd : app.hasSetDefaults <;> simp [Run, hsd, hd, h1, h2]

theorem run_build_fail (app : AppSpec) (e : GoError)
    (hd : app.hasSetDefaults = true → app.setDefaultsResult = none)
    (hv : app.hasValidate = true → app.validateResult = none)
    (hb : app.buildResult = some e) :
    Run app = (optEvents app ++ [Event.build], some (GoError.wrap "fx.New" e)) := by
  by_cases hsd : app.hasSetDefaults <;> by_cases hvl : app.hasValidate <;>
    simp [Run, optEvents, hsd, hvl, hd, hv, hb]

theorem run_start_fail (app : AppSpec) (e : GoError)
    (hd : app.hasSetDefaults = true → app.setDefaultsResult = none)
    (hv : app.hasValidate = true → app.validateResult = none)
    (hb : app.buildResult = none)
    (hs : app.startResult = some e) :
    Run app =
      (optEvents app ++
        [Event.build, Event.startCancelAcquire, Event.start, Event.startCancelRelease],
       some (GoError.wrap "fx.Start" e)) := by
  by_cases hsd : app.hasSetDefaults <;> by_cases hvl : app.hasValidate <;>
    simp [Run, optEvents, hsd, hvl, hd, hv, hb, hs]

theorem run_stop_fail (app : AppSpec) (e : GoError)
    (hd : app.hasSetDefaults = true → app.setDefaultsResult = none)
    (hv : app.hasValidate = true → app.validateResult = none)
    (hb : app.buildResult = none)
    (hs : app.startResult = none)
    (hst : app.stopResult = some e) :
    Run app =
      (optEvents app ++
        [Event.build, Event.startCancelAcquire, Event.start, Event.wait,
         Event.stopCancelAcquire, Event.stop, Event.stopCancelRelease,
         Event.startCancelRelease],
       some (GoError.wrap "fx.Stop" e)) := by
  by_cases hsd : app.hasSetDefaults <;> by_cases hvl : app.hasValidate <;>
    simp [Run, optEvents, hsd, hvl, hd, hv, hb, hs, hst]

theorem run_all_ok (app : AppSpec)
    (hd : app.hasSetDefaults = true → app.setDefaultsResult = none)
    (hv : app.hasValidate = true → app.validateResult = none)
    (hb : app.buildResult = none)
    (hs : app.startResult = none)
    (hst : app.stopResult = none) :
    Run app =
      (optEvents app ++
        [Event.build, Event.startCancelAcquire, Event.start, Event.wait,
         Event.stopCancelAcquire, Event.stop, Event.stopCancelRelease,
         Event.startCancelRelease],
       if app.waitSignal.ExitCode = 0 then none
       else some (GoError.exit ⟨app.waitSignal.ExitCode, app.waitSignal.Signal⟩)) := by
  by_cases hsd : app.hasSetDefaults <;> by_cases hvl : app.hasValidate <;>
    by_cases hec : app.waitSignal.ExitCode = 0 <;>
      simp [Run, optEvents, hsd, hvl, hd, hv, hb, hs, hst, hec]

/-- Application used by counterexamples / witnesses: no optional hooks, every
phase succeeds, and `Wait` delivers exit code 0 together with a non-nil OS
signal. -/
def appSignalZero : AppSpec :=
  ⟨false, none, false, none, none, none, ⟨0, some "SIGTERM"⟩, none⟩

/-- C1 (counterexample): `Wait` delivers exit code 0 with a non-nil OS signal
and every phase succeeds, yet `Run` returns nil (Success) — not an
`ExitError` carrying the signal, contrary to the claim that a non-nil signal
with exit code 0 yields ExitSignal. -/
theorem run_code_zero_signal_counterexample :
    appSignalZero.waitSignal.Signal = some "SIGTERM" ∧
      (Run appSignalZero).2 = none ∧
      (Run appSignalZero).2 ≠ some (GoError.exit ⟨0, some "SIGTERM"⟩) := by
  refine ⟨rfl, rfl, ?_⟩
  decide

/-- C1 (amended): when Start succeeded, Wait returned, and Stop succeeded,
the outcome is Success (nil) exactly when the termination signal's exit code
is 0, and `ExitError{code, signal}` exactly when the exit code is nonzero;
the `Signal` field does not influence the choice (a non-nil signal with exit
code 0 still yields Success). -/
theorem run_resolve_on_exit_code (app : AppSpec)
    (hd : app.hasSetDefaults = true → app.setDefaultsResult = none)
    (hv : app.hasValidate = true → app.validateResult = none)
    (hb : app.buildResult = none)
    (hs : app.startResult = none)
    (hst : app.stopResult = none) :
    (Run app).2 =
      if app.waitSignal.ExitCode = 0 then none
      else some (GoError.exit ⟨app.waitSignal.ExitCode, app.waitSignal.Signal⟩) := by
  rw [run_all_ok app hd hv hb hs hst]

/-- C1 (witness): concrete instance with exit code 3. -/
theorem run_resolve_on_exit_code_witness :
    (Run ⟨false, none, false, none, none, none, ⟨3, none⟩, none⟩).2 =
      some (GoError.exit ⟨3, none⟩) := by
  have h := run_resolve_on_exit_code
    ⟨false, none, false, none, none, none, ⟨3, none⟩, none⟩
    (by decide) (by decide) rfl rfl rfl
  simpa using h

/-- C2: once Start has succeeded, Stop is invoked exactly once, and only
after Wait has returned, for every termination signal value and whether or
not Stop itself then fails; no path skips Stop after a successful Start. -/
theorem stop_once_after_wait (app : AppSpec)
    (hd : app.hasSetDefaults = true → app.setDefaultsResult = none)
    (hv : app.hasValidate = true → app.validateResult = none)
    (hb : app.buildResult = none)
    (hs : app.startResult = none) :
    (Run app).1.count Event.stop = 1 ∧
      (Run app).1.indexOf Event.wait < (Run app).1.indexOf Event.stop := by
  cases hst : app.stopResult with
  | some e =>
      rw [run_stop_fail app e hd hv hb hs hst]
      by_cases hsd : app.hasSetDefaults <;> by_cases hvl : app.hasValidate <;>
        simp [optEvents, hsd, hvl]
  | none =>
      rw [run_all_ok app hd hv hb hs hst]
      by_cases hsd : app.hasSetDefaults <;> by_cases hvl : app.hasValidate <;>
        simp [optEvents, hsd, hvl]

/-- C2 (witness): concrete instance with a nonzero termination code. -/
theorem stop_once_after_wait_witness :
    (Run ⟨false, none, false, none, none, none, ⟨7, none⟩, none⟩).1.count Event.stop = 1 ∧
      (Run ⟨false, none, false, none, none, none, ⟨7, none⟩, none⟩).1.indexOf Event.wait <
        (Run ⟨false, none, false, none, none, none, ⟨7, none⟩, none⟩).1.indexOf Event.stop :=
  stop_once_after_wait ⟨false, none, false, none, none, none, ⟨7, none⟩, none⟩
    (by decide) (by decide) rfl rfl

/-- C3: if Wait returned any termination signal (e.g. code 7) and Stop then
fails with cause `e`, `Run` returns the Stop phase error `fx.Stop: e` — not
an `ExitError` carrying the termination signal's code; the Stop failure
takes reporting precedence. -/
theorem stop_error_overrides_signal (app : AppSpec) (e : GoError)
    (hd : app.hasSetDefaults = true → app.setDefaultsResult = none)
    (hv : app.hasValidate = true → app.validateResult = none)
    (hb : app.buildResult = none)
    (hs : app.startResult = none)
    (hst : app.stopResult = some e) :
    (Run app).2 = some (GoError.wrap "fx.Stop" e) ∧
      (Run app).2 ≠ some (GoError.exit ⟨app.waitSignal.ExitCode, app.waitSignal.Signal⟩) := by
  rw [run_stop_fail app e hd hv hb hs hst]
  exact ⟨rfl, by simp⟩

/-- C3 (witness): Stop fails after a termination signal with code 7. -/
theorem stop_error_overrides_signal_witness :
    (Run ⟨false, none, false, none, none, none, ⟨7, none⟩, some (GoError.base "boom")⟩).2 =
        some (GoError.wrap "fx.Stop" (GoError.base "boom")) ∧
      (Run ⟨false, none, false, none, none, none, ⟨7, none⟩, some (GoError.base "boom")⟩).2 ≠
        some (GoError.exit ⟨7, none⟩) :=
  stop_error_overrides_signal
    ⟨false, none, false, none, none, none, ⟨7, none⟩, some (GoError.base "boom")⟩
    (GoError.base "boom") (by decide) (by decide) rfl rfl rfl

/-- C4: if Build succeeds but Start fails with cause `e` (for instance a
deadline-exceeded cause from the start-timeout-bounded context), `Run`
returns the Start phase error `fx.Start: e`, and neither Wait nor Stop is
ever invoked. -/
theorem start_error_skips_wait_and_stop (app : AppSpec) (e : GoError)
    (hd : app.hasSetDefaults = true → app.setDefaultsResult = none)
    (hv : app.hasValidate = true → app.validateResult = none)
    (hb : app.buildResult = none)
    (hs : app.startResult = some e) :
    (Run app).2 = some (GoError.wrap "fx.Start" e) ∧
      Event.wait ∉ (Run app).1 ∧ Event.stop ∉ (Run app).1 := by
  rw [run_start_fail app e hd hv hb hs]
  refine ⟨rfl, ?_, ?_⟩ <;>
    · by_cases hsd : app.hasSetDefaults <;> by_cases hvl : app.hasValidate <;>
        simp [optEvents, hsd, hvl]

/-- C4 (witness): concrete instance of a Start failure. -/
theorem start_error_skips_wait_and_stop_witness :
    (Run ⟨false, none, false, none, none, some (GoError.base "deadline"), ⟨0, none⟩, none⟩).2 =
        some (GoError.wrap "fx.Start" (GoError.base "deadline")) ∧
      Event.wait ∉
        (Run ⟨false, none, false, none, none, some (GoError.base "deadline"), ⟨0, none⟩, none⟩).1 ∧
      Event.stop ∉
        (Run ⟨false, none, false, none, none, some (GoError.base "deadline"), ⟨0, none⟩, none⟩).1 :=
  start_error_skips_wait_and_stop
    ⟨false, none, false, none, none, some (GoError.base "deadline"), ⟨0, none⟩, none⟩
    (GoError.base "deadline") (by decide) (by decide) rfl rfl

/-- C5: if the application implements `SetDefaulter` and `SetDefaults` fails
with cause `e`, `Run` returns immediately with the `set defaults` phase
error wrapping `e`, and none of Validate, Build, Start, Wait or Stop is ever
invoked; the error is neither retried nor suppressed. -/
theorem setDefaults_error_short_circuits (app : AppSpec) (e : GoError)
    (h1 : app.hasSetDefaults = true) (h2 : app.setDefaultsResult = some e) :
    (Run app).2 = some (GoError.wrap "set defaults" e) ∧
      Event.validate ∉ (Run app).1 ∧ Event.build ∉ (Run app).1 ∧
      Event.start ∉ (Run app).1 ∧ Event.wait ∉ (Run app).1 ∧
      Event.stop ∉ (Run app).1 := by
  rw [run_setDefaults_fail app e h1 h2]
  exact ⟨rfl, by simp, by simp, by simp, by simp, by simp⟩

/-- C5 (witness): concrete instance of a SetDefaults failure. -/
theorem setDefaults_error_short_circuits_witness :
    (Run ⟨true, some (GoError.base "bad"), false, none, none, none, ⟨0, none⟩, none⟩).2 =
        some (GoError.wrap "set defaults" (GoError.base "bad")) ∧
      Event.validate ∉
        (Run ⟨true, some (GoError.base "bad"), false, none, none, none, ⟨0, none⟩, none⟩).1 ∧
      Event.build ∉
        (Run ⟨true, some (GoError.base "bad"), false, none, none, none, ⟨0, none⟩, none⟩).1 ∧
      Event.start ∉
        (Run ⟨true, some (GoError.base "bad"), false, none, none, none, ⟨0, none⟩, none⟩).1 ∧
      Event.wait ∉
        (Run ⟨true, some (GoError.base "bad"), false, none, none, none, ⟨0, none⟩, none⟩).1 ∧
      Event.stop ∉
        (Run ⟨true, some (GoError.base "bad"), false, none, none, none, ⟨0, none⟩, none⟩).1 :=
  setDefaults_error_short_circuits
    ⟨true, some (GoError.base "bad"), false, none, none, none, ⟨0, none⟩, none⟩
    (GoError.base "bad") rfl rfl

/-- C6: an application implementing neither `SetDefaulter` nor `Validator`
proceeds directly to Build (the first event of the trace is the `fx.New`
call, and no SetDefaults or Validate invocation ever occurs), and the
absence of the optional capabilities alone produces no error: when the
remaining phases succeed with a clean termination signal, `Run` returns
nil. -/
theorem no_optional_hooks_skip (app : AppSpec)
    (h1 : app.hasSetDefaults = false) (h2 : app.hasValidate = false) :
    (Run app).1.head? = some Event.build ∧
      Event.setDefaults ∉ (Run app).1 ∧ Event.validate ∉ (Run app).1 ∧
      (app.buildResult = none → app.startResult = none → app.stopResult = none →
        app.waitSignal.ExitCode = 0 → (Run app).2 = none) := by
  have hd : app.hasSetDefaults = true → app.setDefaultsResult = none := by
    intro h; rw [h1] at h; cases h
  have hv : app.hasValidate = true → app.validateResult = none := by
    intro h; rw [h2] at h; cases h
  have hopt : optEvents app = [] := by simp [optEvents, h1, h2]
  refine ⟨?_, ?_, ?_, ?_⟩
  · cases hb : app.buildResult with
    | some e => rw [run_build_fail app e hd hv hb, hopt]; rfl
    | none =>
      cases hs : app.startResult with
      | some e => rw [run_start_fail app e hd hv hb hs, hopt]; rfl
      | none =>
        cases hst : app.stopResult with
        | some e => rw [run_stop_fail app e hd hv hb hs hst, hopt]; rfl
        | none => rw [run_all_ok app hd hv hb hs hst, hopt]; rfl
  · cases hb : app.buildResult with
    | some e => rw [run_build_fail app e hd hv hb, hopt]; simp
    | none =>
      cases hs : app.startResult with
      | some e => rw [run_start_fail app e hd hv hb hs, hopt]; simp
      | none =>
        cases hst : app.stopResult with
        | some e => rw [run_stop_fail app e hd hv hb hs hst, hopt]; simp
        | none => rw [run_all_ok app hd hv hb hs hst, hopt]; simp
  · cases hb : app.buildResult with
    | some e => rw [run_build_fail app e hd hv hb, hopt]; simp
    | none =>
      cases hs : app.startResult with
      | some e => rw [run_start_fail app e hd hv hb hs, hopt]; simp
      | none =>
        cases hst : app.stopResult with
        | some e => rw [run_stop_fail app e hd hv hb hs hst, hopt]; simp
        | none => rw [run_all_ok app hd hv hb hs hst, hopt]; simp
  · intro hb hs hst hec
    rw [run_all_ok app hd hv hb hs hst]
    simp [hec]

/-- C6 (witness): concrete instance with no optional hooks and all
mandatory phases succeeding. -/
theorem no_optional_hooks_skip_witness :
    (Run ⟨false, none, false, none, none, none, ⟨0, none⟩, none⟩).1.head? =
        some Event.build ∧
      (Run ⟨false, none, false, none, none, none, ⟨0, none⟩, none⟩).2 = none :=
  ⟨(no_optional_hooks_skip ⟨false, none, false, none, none, none, ⟨0, none⟩, none⟩
      rfl rfl).1,
   (no_optional_hooks_skip ⟨false, none, false, none, none, none, ⟨0, none⟩, none⟩
      rfl rfl).2.2.2 rfl rfl rfl rfl⟩

/-- C7: if every phase succeeds and the termination signal carries exit code
3, `Run` returns `ExitError` with code 3 (and the signal's OS-signal field),
and `RunAndExit` passes exit status exactly 3 to `os.Exit`. -/
theorem exit_code_three_propagates (app : AppSpec)
    (hd : app.hasSetDefaults = true → app.setDefaultsResult = none)
    (hv : app.hasValidate = true → app.validateResult = none)
    (hb : app.buildResult = none)
    (hs : app.startResult = none)
    (hst : app.stopResult = none)
    (hec : app.waitSignal.ExitCode = 3) :
    (Run app).2 = some (GoError.exit ⟨3, app.waitSignal.Signal⟩) ∧
      RunAndExit app = 3 := by
  have h := run_all_ok app hd hv hb hs hst
  have h2 : (Run app).2 = some (GoError.exit ⟨3, app.waitSignal.Signal⟩) := by
    rw [h]; simp [hec]
  exact ⟨h2, by simp [RunAndExit, h2, asExitError]⟩

/-- C7 (witness): concrete instance with termination code 3. -/
theorem exit_code_three_propagates_witness :
    (Run ⟨false, none, false, none, none, none, ⟨3, some "SIGINT"⟩, none⟩).2 =
        some (GoError.exit ⟨3, some "SIGINT"⟩) ∧
      RunAndExit ⟨false, none, false, none, none, none, ⟨3, some "SIGINT"⟩, none⟩ = 3 :=
  exit_code_three_propagates
    ⟨false, none, false, none, none, none, ⟨3, some "SIGINT"⟩, none⟩
    (by decide) (by decide) rfl rfl rfl rfl

/-- Application used by the C8 counterexample: no optional hooks, every
phase succeeds, clean termination. -/
def appAllOk : AppSpec := ⟨false, none, false, none, none, none, ⟨0, none⟩, none⟩

/-- C8 (counterexample): on the success path the start-bounded sub-context's
cancel function is NOT released before the Wait phase begins: `Wait` occurs
in the trace strictly before `startCancel` runs (both deferred releases run
only when `Run` returns, after Wait and Stop). -/
theorem start_cancel_not_released_before_wait :
    Event.wait ∈ (Run appAllOk).1 ∧
      (Run appAllOk).1.indexOf Event.wait <
        (Run appAllOk).1.indexOf Event.startCancelRelease := by
  decide

/-- C8 (amended): both cancel functions are deferred, so they are released
when `Run` returns, on every path and regardless of outcome: whenever the
start-bounded sub-context is acquired its release is the final event of the
trace (in particular it is released on the Start-failure path, where `Run`
returns immediately), and whenever the stop-bounded sub-context is acquired
its release also occurs before `Run` returns — but neither release happens
before the Wait phase on the success path. -/
theorem cancel_released_at_run_return (app : AppSpec) :
    (Event.startCancelAcquire ∈ (Run app).1 →
        (Run app).1.getLast? = some Event.startCancelRelease) ∧
      (Event.stopCancelAcquire ∈ (Run app).1 →
        Event.stopCancelRelease ∈ (Run app).1) := by
  obtain ⟨hsd, sdr, hvl, vr, br, sr, ⟨ec, sg⟩, str⟩ := app
  cases hsd <;> cases hvl <;> cases sdr <;> cases vr <;> cases br <;>
    cases sr <;> cases str <;> by_cases hec : ec = 0 <;>
      simp [Run, hec, List.getLast?]

/-- C8 (witness): concrete instance where the start context is acquired and
its release is the trace's final event. -/
theorem cancel_released_at_run_return_witness :
    Event.startCancelAcquire ∈
        (Run ⟨false, none, false, none, none, some (GoError.base "late"), ⟨0, none⟩, none⟩).1 ∧
      (Run ⟨false, none, false, none, none, some (GoError.base "late"), ⟨0, none⟩, none⟩).1.getLast? =
        some Event.startCancelRelease :=
  ⟨by decide,
   (cancel_released_at_run_return
      ⟨false, none, false, none, none, some (GoError.base "late"), ⟨0, none⟩, none⟩).1
     (by decide)⟩

/-- Every non-nil error returned by `Run` is either a phase error
(`fmt.Errorf` wrapper with a phase tag) or an `ExitError` value. -/
theorem run_err_wrap_or_exit (app : AppSpec) (err : GoError)
    (h : (Run app).2 = some err) :
    (∃ tag cause, err = GoError.wrap tag cause) ∨ ∃ e, err = GoError.exit e := by
  obtain ⟨hsd, sdr, hvl, vr, br, sr, ⟨ec, sg⟩, str⟩ := app
  cases hsd <;> cases hvl <;> cases sdr <;> cases vr <;> cases br <;>
    cases sr <;> cases str <;> by_cases hec : ec = 0 <;>
      simp [Run, hec] at h <;>
        first
          | exact Or.inl ⟨_, _, h.symm⟩
          | exact Or.inl ⟨_, _, h⟩
          | exact Or.inr ⟨_, h.symm⟩

/-- Application used by the C9 counterexample: Stop fails with an error that
is itself an `ExitError` value (a hook may return any `error`). -/
def appStopExitErr : AppSpec :=
  ⟨false, none, false, none, none, none, ⟨0, none⟩, some (GoError.exit ⟨5, none⟩)⟩

/-- C9 (counterexample): `Run` returns a Stop phase error, yet `RunAndExit`
does not take the fatal path with a reserved status: `errors.As` finds the
`ExitError` inside the wrapped cause and the process exits with the
application-style code 5, not with the `log.Fatal` status 1. -/
theorem phase_error_not_always_fatal :
    (Run appStopExitErr).2 =
        some (GoError.wrap "fx.Stop" (GoError.exit ⟨5, none⟩)) ∧
      RunAndExit appStopExitErr = 5 ∧ RunAndExit appStopExitErr ≠ 1 := by
  refine ⟨by decide, by decide, by decide⟩

/-- C9 (amended): for every `Run` invocation returning a phase error whose
wrapped cause chain contains no `ExitError`, `RunAndExit` treats it as
fatal: the error is a phase wrapper whose message preserves the phase tag,
and the process exits with `log.Fatal`'s status 1 (nonzero, but equal to 1
in all such cases rather than a code reserved apart from application exit
codes). -/
theorem phase_error_fatal_status_one (app : AppSpec) (err : GoError)
    (h : (Run app).2 = some err)
    (hne : asExitError err = none) :
    RunAndExit app = 1 ∧
      ∃ tag cause, err = GoError.wrap tag cause ∧
        err.message = tag ++ ": " ++ cause.message := by
  refine ⟨by simp [RunAndExit, h, hne], ?_⟩
  rcases run_err_wrap_or_exit app err h with ⟨tag, cause, rfl⟩ | ⟨e, rfl⟩
  · exact ⟨tag, cause, rfl, rfl⟩
  · simp [asExitError] at hne

/-- C9 (witness): a Build failure with an ordinary cause exits with
status 1. -/
theorem phase_error_fatal_status_one_witness :
    RunAndExit ⟨false, none, false, none, some (GoError.base "missing dep"), none,
        ⟨0, none⟩, none⟩ = 1 :=
  (phase_error_fatal_status_one
    ⟨false, none, false, none, some (GoError.base "missing dep"), none, ⟨0, none⟩, none⟩
    (GoError.wrap "fx.New" (GoError.base "missing dep")) (by decide) (by decide)).1

/-- C10: when `Run` returns a phase error whose wrapped cause chain contains
an `ExitError` (for instance a Validate or Stop hook returning one),
`errors.As` in `RunAndExit` matches it through the wrapping and the process
exits with that `ExitError`'s exit code, not via the fatal phase-error
path. -/
theorem exit_error_matched_through_wrapping (app : AppSpec)
    (tag : String) (cause : GoError)
    (h : (Run app).2 = some (GoError.wrap tag cause))
    (ee : ExitError) (he : asExitError cause = some ee) :
    RunAndExit app = ee.ExitCode := by
  simp [RunAndExit, h, asExitError, he]

/-- C10 (witness): a Validate hook returning `ExitError{7}` makes
`RunAndExit` exit with status 7. -/
theorem exit_error_matched_through_wrapping_witness :
    RunAndExit ⟨false, none, true, some (GoError.exit ⟨7, none⟩), none, none,
        ⟨0, none⟩, none⟩ = 7 :=
  exit_error_matched_through_wrapping
    ⟨false, none, true, some (GoError.exit ⟨7, none⟩), none, none, ⟨0, none⟩, none⟩
    "validate" (GoError.exit ⟨7, none⟩) (by decide) ⟨7, none⟩ (by decide)
